import Mathlib

/-!
Shallow embedding of the notebook
`1. Building an "in-the-wild" texture model.ipynb`.

The notebook loads (image, 3D fit) pairs from the 300W-3D / 300W-3D-Face
dataset trees, converts the raw MATLAB fit convention to a pixel-aligned
mesh, rescales each pair so the mesh's 2D bounding-box diagonal equals a
configured constant, extracts a dense feature image, and exports the fitted
texture model together with the metadata used.

Numbers are modelled over `ℚ` (the Python code computes with float64; all
claims under study are exact algebraic relationships, stated here exactly).
External-library collaborators (menpo / scipy) are modelled from their
contracts as stated in the spec; each such definition carries a doc comment
saying exactly what is modelled.
-/

namespace ITW

/-- A 2D point `(y, x)` in menpo's `(row, column)` pixel convention. -/
abbrev Vec2 := ℚ × ℚ

/-- A 3D point `(y, x, z)`. -/
abbrev Vec3 := ℚ × ℚ × ℚ

/-- Numpy dtype tag carried by a pixel array (`float64` before the
`astype(np.float32)` cast, `float32` after). -/
inductive DType where
  | float64
  | float32
deriving DecidableEq, Inhabited

/-- A numpy pixel array: the flat pixel data together with its dtype. -/
structure PixArr where
  data : List ℚ
  dtype : DType
deriving DecidableEq, Inhabited

/-- IEEE-754 binary32 round-to-nearest on a rational, modelling
`astype(np.float32)` on a single value: the significand is rounded to 24
bits at the scale of the value's binary exponent (overflow and subnormal
ranges are not modelled; no claim under study depends on them). -/
def roundF32 (q : ℚ) : ℚ :=
  if q = 0 then 0
  else
    let e : ℤ := Int.log 2 |q| - 23
    let m : ℤ := round (|q| * ((2 : ℚ) ^ e)⁻¹)
    (if q < 0 then -1 else 1) * (m : ℚ) * (2 : ℚ) ^ e

/-- `arr.astype(np.float32)`: a new array whose values are the float32
roundings of the old and whose dtype is `float32`. -/
def astype_float32 (p : PixArr) : PixArr :=
  { data := p.data.map roundF32, dtype := DType.float32 }

/-- A menpo `Image`: pixel array, spatial shape `(rows, cols)`, number of
channels, and the one landmark group the notebook uses (`fit_2d`). -/
structure ImageV where
  pix : PixArr
  shape : ℕ × ℕ
  nChannels : ℕ
  landmarks : List Vec2
deriving DecidableEq, Inhabited

/-- Modelled from the spec: menpo's `Image.as_greyscale()` collapses the
channels to one; the spatial shape and landmarks are untouched (the
channel-averaging numerics are irrelevant to every claim and the stored
data is kept as-is). -/
def as_greyscale (img : ImageV) : ImageV :=
  { img with nChannels := 1 }

/-- A feature image produced by the dense feature extraction. -/
structure FeatImage where
  shape : ℕ × ℕ
  nChannels : ℕ
  data : List ℚ
deriving DecidableEq, Inhabited

/-- Modelled from the spec: `fast_dsift` is the fixed dense per-pixel
feature extraction — a deterministic function of the input image whose
output grid has the input's spatial shape (spec: "dense per-pixel feature
vector image derived from a grayscale image via a fixed extraction
function"). The per-pixel numerics are opaque; a concrete deterministic
stand-in is used. -/
def fast_dsift (img : ImageV) : FeatImage :=
  { shape := img.shape, nChannels := 8, data := img.pix.data }

/-- The image feature we wish to employ (`FEATURE_F = fast_dsift`). -/
def FEATURE_F : ImageV → FeatImage := fast_dsift

/-- The diagonal range of the projected fit (`DIAGONAL_RANGE = 180`). -/
def DIAGONAL_RANGE : ℚ := 180

/-- A menpo `TriMesh`: the 3D points plus triangle connectivity. -/
structure TriMesh where
  points : List Vec3
  trilist : List (ℤ × ℤ × ℤ)
deriving DecidableEq, Inhabited

/-- A dataset path relative to the `300W-3D` root, split into stem and
extension so that `with_suffix` is a field update, as in `pathlib`. -/
structure DPath where
  stem : String
  ext : String
deriving DecidableEq

/-- `pathlib.Path.with_suffix`: replace the extension. -/
def DPath.with_suffix (p : DPath) (e : String) : DPath :=
  { p with ext := e }

/-- The filesystem the notebook reads: the `300W-3D` image tree, the
parallel `300W-3D-Face` fit tree (keyed by the relative path with suffix
`.mat`), and the `model_info.mat` triangle-connectivity file. A raw fit is
the 3×N `Fitted_Face` matrix, modelled as its list of columns `(a, b, c)`;
the raw `tri` matrix is its list of columns of 1-based indices. -/
structure FileSystem where
  images : DPath → Option ImageV
  fits : DPath → Option (List Vec3)
  modelInfo : Option (List (ℤ × ℤ × ℤ))

/-- Errors a sample load can surface (a raised exception in Python). -/
inductive LoadError where
  | imageNotFound (p : DPath)
  | fitNotFound (p : DPath)
  | modelInfoNotFound
deriving DecidableEq

deriving instance DecidableEq for Except

/-- `load_trilist()`: read the `tri` matrix from `model_info.mat`, flip
triangle faces (row order `[1, 0, 2]`), transpose, and move MATLAB 1-based
indices to 0-based (`trilist[[1, 0, 2]].T - 1`). The `lru_cache(1)` makes
this a pure function of the file, read once; here it is a pure function of
the filesystem. -/
def load_trilist (fs : FileSystem) : Except LoadError (List (ℤ × ℤ × ℤ)) :=
  match fs.modelInfo with
  | none => Except.error LoadError.modelInfoNotFound
  | some tri => Except.ok (tri.map (fun t => (t.2.1 - 1, t.1 - 1, t.2.2 - 1)))

/-- `convert_raw_3d_fit_to_img_trimesh_fit(raw_3d_fit, img)`:
`img_points_2d = raw_3d_fit[:2][::-1].copy() - 1` (swap the first two rows,
MATLAB 1-indexing), `img_points_2d[0] = img.shape[0] - img_points_2d[0]`
(invert the vertical axis), depth negated, stacked and transposed into a
`TriMesh` over `load_trilist()`. -/
def convert_raw_3d_fit_to_img_trimesh_fit (fs : FileSystem) (raw_3d_fit : List Vec3)
    (img : ImageV) : Except LoadError TriMesh :=
  match load_trilist fs with
  | Except.error e => Except.error e
  | Except.ok tl =>
    let img_points_2d := raw_3d_fit.map (fun v => (v.2.1 - 1, v.1 - 1))
    let img_points_2d_flipped :=
      img_points_2d.map (fun p => ((img.shape.1 : ℚ) - p.1, p.2))
    let img_points_3d :=
      (img_points_2d_flipped.zip (raw_3d_fit.map (fun v => v.2.2 * (-1)))).map
        (fun pq => (pq.1.1, pq.1.2, pq.2))
    Except.ok { points := img_points_3d, trilist := tl }

/-- `load_img_and_fit(img_path)`: import the image, convert to greyscale,
read the `Fitted_Face` matrix from the parallel `300W-3D-Face` tree at the
same relative path with suffix `.mat`, and convert it to the pixel-aligned
mesh. A missing file raises (surfaces as an error), as in
`sio.loadmat` / `mio.import_image`. -/
def load_img_and_fit (fs : FileSystem) (img_path : DPath) :
    Except LoadError (ImageV × TriMesh) :=
  match fs.images img_path with
  | none => Except.error (LoadError.imageNotFound img_path)
  | some raw_img =>
    match fs.fits (img_path.with_suffix ".mat") with
    | none => Except.error (LoadError.fitNotFound (img_path.with_suffix ".mat"))
    | some raw_3d_fit =>
      match convert_raw_3d_fit_to_img_trimesh_fit fs raw_3d_fit (as_greyscale raw_img) with
      | Except.error e => Except.error e
      | Except.ok fit_trimesh_3d => Except.ok (as_greyscale raw_img, fit_trimesh_3d)

/-- The transform returned by menpo's rescale with `return_transform=True`:
the (uniform) scale it applies, read off as `tr.scale[0]`. -/
structure ScaleTransform where
  scale0 : ℚ
  scale1 : ℚ
deriving DecidableEq

/-- Range (max − min) of a list of coordinates, as in menpo's
`PointCloud.range()` per dimension. -/
def rangeOf : List ℚ → ℚ
  | [] => 0
  | x :: xs => xs.foldl max x - xs.foldl min x

/-- Squared bounding-box diagonal of a 2D point cloud:
`range_y ** 2 + range_x ** 2` (the square of menpo's
`np.sqrt(np.sum(range ** 2))`). -/
def sqDiag (pts : List Vec2) : ℚ :=
  rangeOf (pts.map Prod.fst) ^ 2 + rangeOf (pts.map Prod.snd) ^ 2

/-- `s` is the scale factor menpo's
`rescale_landmarks_to_diagonal_range(D)` computes for the point cloud
`pts`: `s = D / diagonal(pts)`, i.e. `s ≥ 0` and `s² · sqDiag pts = D²`.
The square root is irrational in general, so `s` is characterised by this
predicate rather than computed over `ℚ`. -/
def IsDiagScale (D : ℚ) (pts : List Vec2) (s : ℚ) : Prop :=
  0 ≤ s ∧ s ^ 2 * sqDiag pts = D ^ 2

instance (D : ℚ) (pts : List Vec2) (s : ℚ) : Decidable (IsDiagScale D pts s) :=
  inferInstanceAs (Decidable (_ ∧ _))

/-- Modelled from the spec: menpo's
`Image.rescale_landmarks_to_diagonal_range(D, return_transform=True)`
computes `scale = D / diagonal(landmarks)` and rescales the image by it:
the spatial shape becomes `⌈scale · n⌉` per dimension, the pixel content is
resampled (interpolation numerics opaque; content kept as stand-in), the
landmarks are mapped by exactly `scale`, and the returned transform is the
warp from the rescaled frame back to the original — a uniform scale with
factor `1 / scale` (the spec's "recomputing the fit's depth coordinate by
the same scale factor" pins this orientation). Because `scale` involves a
square root, it is passed explicitly as `s`, constrained by `IsDiagScale D
img.landmarks s` in the theorems; the argument `D` itself is consumed only
through that constraint. -/
def rescale_landmarks_to_diagonal_range (img : ImageV) (_D : ℚ) (s : ℚ) :
    ImageV × ScaleTransform :=
  ({ pix := img.pix
     shape := (⌈s * (img.shape.1 : ℚ)⌉.toNat, ⌈s * (img.shape.2 : ℚ)⌉.toNat)
     nChannels := img.nChannels
     landmarks := img.landmarks.map (fun p => (s * p.1, s * p.2)) },
   { scale0 := s⁻¹, scale1 := s⁻¹ })

/-- Project mesh points to their first two coordinate columns
(`points[:, :2]`). -/
def lm2D (pts : List Vec3) : List Vec2 :=
  pts.map (fun v => (v.1, v.2.1))

/-- An `(img, feat, fit_trimesh_3d)` triple as produced per sample. -/
abbrev Sample := ImageV × FeatImage × TriMesh

/-- `load_data_with_feature_sample(img_path, err_proportion=0.0001)`:
load the pair, attach the fit's 2D projection as the `fit_2d` landmark
group, rescale image and landmarks to `DIAGONAL_RANGE`, write the rescaled
landmarks back into the mesh's first two columns, divide the depth column
by `tr.scale[0]`, and take `FEATURE_F` on the rescaled image. `s` is the
rescale factor (see `rescale_landmarks_to_diagonal_range`);
`err_proportion` is accepted and, as in the source, never read. -/
def load_data_with_feature_sample (fs : FileSystem) (s : ℚ) (img_path : DPath)
    (err_proportion : ℚ) : Except LoadError Sample :=
  match load_img_and_fit fs img_path with
  | Except.error e => Except.error e
  | Except.ok (img, fit_trimesh_3d) =>
    let _ := err_proportion
    let img1 := { img with landmarks := lm2D fit_trimesh_3d.points }
    let res := rescale_landmarks_to_diagonal_range img1 DIAGONAL_RANGE s
    let img2 := res.1
    let tr := res.2
    let newpts :=
      (fit_trimesh_3d.points.zip img2.landmarks).map
        (fun pq => (pq.2.1, pq.2.2, pq.1.2.2 / tr.scale0))
    let fit2 := { fit_trimesh_3d with points := newpts }
    let feat := FEATURE_F img2
    Except.ok (img2, feat, fit2)

/-- Modelled from the spec: menpo's `LazyList` is an on-demand sequence —
a list of thunks, each forced only when its index is accessed. -/
abbrev LazyList (α : Type) := List (Unit → α)

/-- `LazyList.init_from_iterable`: wrap each element unevaluated. -/
def LazyList.init_from_iterable {α : Type} (l : List α) : LazyList α :=
  l.map (fun a => fun _ => a)

/-- `LazyList.map(f)`: compose `f` onto every thunk without forcing any. -/
def LazyList.lazyMap {α β : Type} (l : LazyList α) (f : α → β) : LazyList β :=
  List.map (fun g => fun _ => f (g ())) l

/-- Number of elements of the lazy sequence (no thunk is forced). -/
def LazyList.llength {α : Type} (l : LazyList α) : ℕ :=
  List.length l

/-- Index into the lazy sequence, forcing exactly that element's thunk. -/
def LazyList.lget {α : Type} (l : LazyList α) (i : ℕ) : Option α :=
  (List.get? l i).map (fun g => g ())

/-- The notebook's pipeline
`LazyList.init_from_iterable(img_paths).map(load_data_with_feature_sample)`
(the map uses the default `err_proportion=0.0001`). -/
def imgs_features_and_fits (fs : FileSystem) (s : ℚ) (img_paths : List DPath) :
    LazyList (Except LoadError Sample) :=
  (LazyList.init_from_iterable img_paths).lazyMap
    (fun p => load_data_with_feature_sample fs s p (1 / 10000))

/-- The fitted ITW texture model (`itw_texture_model`); its contents are
produced by the external RPCA routine and are opaque to the claims. -/
structure TextureModel where
  basis : List (List ℚ)
deriving DecidableEq, Inhabited

/-- A value stored in the exported pickle dictionary. -/
inductive PickleValue where
  | texModel (m : TextureModel)
  | num (q : ℚ)
  | featureFn (f : ImageV → FeatImage)

/-- The dictionary passed to `mio.export_pickle`: exactly the keys
`texture_model`, `diagonal_range` (the literal `180`, as in the source) and
`feature_function` (the literal `fast_dsift`, as in the source). -/
def exported_pickle (itw_texture_model : TextureModel) :
    List (String × PickleValue) :=
  [("texture_model", PickleValue.texModel itw_texture_model),
   ("diagonal_range", PickleValue.num 180),
   ("feature_function", PickleValue.featureFn fast_dsift)]

/-- A heap of image objects, for the aliasing behaviour of `as_float32`:
Python names are references into a store of image values. -/
abbrev Heap := List ImageV

/-- `img.copy()` (menpo `Copyable.copy`): allocate a fresh object holding
a deep copy of the value; the new reference is returned. -/
def heapCopy (h : Heap) (r : ℕ) : Heap × ℕ :=
  (h ++ [h.getD r default], h.length)

/-- `img.pixels = p`: in-place update of the object behind `r`. -/
def heapSetPixels (h : Heap) (r : ℕ) (p : PixArr) : Heap :=
  h.set r { h.getD r default with pix := p }

/-- `as_float32(img)`: `img = img.copy()`;
`img.pixels = img.pixels.astype(np.float32)`; `return img` — operating on
the heap, with the argument passed by reference. -/
def as_float32 (h : Heap) (r : ℕ) : Heap × ℕ :=
  let c := heapCopy h r
  let h2 := heapSetPixels c.1 c.2 (astype_float32 ((c.1.getD c.2 default).pix))
  (h2, c.2)

/-- The in-bounds checks the spatial-alignment contract asserts for a
produced sample: for every mesh vertex, the pair of its 2D coordinates with
the corresponding spatial extent of the feature image (first the vertical
coordinate against the number of rows, then the horizontal against the
number of columns). An errored sample asserts nothing. -/
def alignChecks (r : Except LoadError Sample) : List (ℚ × ℕ) :=
  match r with
  | Except.ok (_, feat, fit) =>
    fit.points.flatMap (fun v => [(v.1, feat.shape.1), (v.2.1, feat.shape.2)])
  | Except.error _ => []

/-- The spatial-alignment contract for one produced sample: every vertex
coordinate is a valid index into the feature image's pixel grid, i.e. lies
in `[0, extent − 1]` for its image dimension. -/
def SampleAligned (r : Except LoadError Sample) : Prop :=
  ∀ c ∈ alignChecks r, 0 ≤ c.1 ∧ c.1 ≤ (c.2 : ℚ) - 1

instance (r : Except LoadError Sample) : Decidable (SampleAligned r) :=
  List.decidableBAll _ (alignChecks r)

unseal Rat.mul Rat.add Rat.sub Rat.inv

/-! Concrete data for witnesses and counterexamples: a tiny filesystem with
one 10×10 image, a two-vertex fit, and a one-triangle connectivity file.
The fit's 2D projection after conversion is `[(10, 0), (6, 3)]`, whose
bounding box has squared diagonal `4² + 3² = 25`, so the rescale factor to
diagonal 180 is exactly `180 / 5 = 36`. -/

/-- Relative path of the single test image. -/
def path0 : DPath := { stem := "a", ext := ".jpg" }

/-- The test image stored at `path0`. -/
def img0 : ImageV :=
  { pix := { data := [1/2, 3], dtype := DType.float64 }
    shape := (10, 10)
    nChannels := 3
    landmarks := [] }

/-- The raw `Fitted_Face` columns stored for `path0`. -/
def rawfit0 : List Vec3 := [(1, 1, 0), (4, 5, 0)]

/-- The raw `tri` columns of the test `model_info.mat`. -/
def tri0 : List (ℤ × ℤ × ℤ) := [(1, 2, 3)]

/-- The test filesystem holding exactly `path0`'s image and fit. -/
def fs0 : FileSystem :=
  { images := fun p => if p = path0 then some img0 else none
    fits := fun p => if p = path0.with_suffix ".mat" then some rawfit0 else none
    modelInfo := some tri0 }

/-- The greyscaled test image as `load_img_and_fit` returns it. -/
def w_img1 : ImageV := { img0 with nChannels := 1 }

/-- The converted (pre-rescale) test mesh. -/
def w_fit1 : TriMesh :=
  { points := [(10, 0, 0), (6, 3, 0)], trilist := [(1, 0, 2)] }

/-- The rescaled test image produced by the normalization step. -/
def w_img2 : ImageV :=
  { pix := img0.pix
    shape := (360, 360)
    nChannels := 1
    landmarks := [(360, 0), (216, 108)] }

/-- The feature image of the rescaled test image. -/
def w_feat2 : FeatImage :=
  { shape := (360, 360), nChannels := 8, data := img0.pix.data }

/-- The normalized test mesh produced by the normalization step. -/
def w_fit2 : TriMesh :=
  { points := [(360, 0, 0), (216, 108, 0)], trilist := [(1, 0, 2)] }

/-- Relative path of a second test image, whose fit file is present in
`fs6` but absent in `fs5`. -/
def pathB : DPath := { stem := "b", ext := ".jpg" }

/-- A second raw fit, stored for `pathB` in `fs6`. -/
def rawfitB : List Vec3 := [(2, 3, 1), (5, 7, 2)]

/-- A filesystem with two images but a fit file only for `path0`:
`pathB`'s fit is missing. -/
def fs5 : FileSystem :=
  { images := fun p =>
      if p = path0 then some img0 else if p = pathB then some img0 else none
    fits := fun p =>
      if p = path0.with_suffix ".mat" then some rawfit0 else none
    modelInfo := some tri0 }

/-- A filesystem with two images and both fit files present. -/
def fs6 : FileSystem :=
  { images := fun p =>
      if p = path0 then some img0 else if p = pathB then some img0 else none
    fits := fun p =>
      if p = path0.with_suffix ".mat" then some rawfit0
      else if p = pathB.with_suffix ".mat" then some rawfitB else none
    modelInfo := some tri0 }

/-- The rescaled image for `pathB` under `fs6` at scale factor 1. -/
def w_img2B : ImageV :=
  { pix := img0.pix
    shape := (10, 10)
    nChannels := 1
    landmarks := [(8, 1), (4, 4)] }

/-- The feature image for `pathB` under `fs6` at scale factor 1. -/
def w_feat2B : FeatImage :=
  { shape := (10, 10), nChannels := 8, data := img0.pix.data }

/-- The normalized mesh for `pathB` under `fs6` at scale factor 1. -/
def w_fit2B : TriMesh :=
  { points := [(8, 1, -1), (4, 4, -2)], trilist := [(1, 0, 2)] }

/-- A one-image heap for the `as_float32` frame-effect witness. -/
def heap0 : Heap := [img0]

/-! Helper lemmas. -/

/-- Zipping a list with a map of itself and projecting is a single map. -/
theorem zip_self_map {α β γ : Type} (l : List α) (f : α → β) (g : α × β → γ) :
    (l.zip (l.map f)).map g = l.map (fun a => g (a, f a)) := by
  induction l with
  | nil => rfl
  | cons a t ih => simp [ih]

/-- Scaling by a nonnegative factor commutes with a running maximum. -/
theorem foldl_max_mul (s : ℚ) (hs : 0 ≤ s) (l : List ℚ) (x : ℚ) :
    (l.map (fun a => s * a)).foldl max (s * x) = s * l.foldl max x := by
  induction l generalizing x with
  | nil => rfl
  | cons a t ih => simp only [List.map_cons, List.foldl_cons, ← ih, mul_max_of_nonneg _ _ hs]

/-- Scaling by a nonnegative factor commutes with a running minimum. -/
theorem foldl_min_mul (s : ℚ) (hs : 0 ≤ s) (l : List ℚ) (x : ℚ) :
    (l.map (fun a => s * a)).foldl min (s * x) = s * l.foldl min x := by
  induction l generalizing x with
  | nil => rfl
  | cons a t ih => simp only [List.map_cons, List.foldl_cons, ← ih, mul_min_of_nonneg _ _ hs]

/-- The coordinate range scales linearly under a nonnegative scale. -/
theorem rangeOf_smul (s : ℚ) (hs : 0 ≤ s) (l : List ℚ) :
    rangeOf (l.map (fun a => s * a)) = s * rangeOf l := by
  cases l with
  | nil => simp [rangeOf]
  | cons a t =>
    simp only [List.map_cons, rangeOf, foldl_max_mul s hs, foldl_min_mul s hs, mul_sub]

/-- The squared bounding-box diagonal scales by `s²` under a nonnegative
uniform scale of the points. -/
theorem sqDiag_smul (s : ℚ) (hs : 0 ≤ s) (pts : List Vec2) :
    sqDiag (pts.map (fun p => (s * p.1, s * p.2))) = s ^ 2 * sqDiag pts := by
  simp only [sqDiag, List.map_map]
  have h1 : (pts.map (fun p : Vec2 => (s * p.1, s * p.2))).map Prod.fst
      = (pts.map Prod.fst).map (fun a => s * a) := by
    simp [List.map_map, Function.comp]
  have h2 : (pts.map (fun p : Vec2 => (s * p.1, s * p.2))).map Prod.snd
      = (pts.map Prod.snd).map (fun a => s * a) := by
    simp [List.map_map, Function.comp]
  rw [← List.map_map, ← List.map_map, h1, h2, rangeOf_smul s hs, rangeOf_smul s hs]
  ring

/-- Master characterization of one normalization step: when the raw pair
loads as `(img0, fit0)`, `load_data_with_feature_sample` succeeds and its
output is the rescaled image, its feature image, and the mesh whose 2D
columns are the rescaled landmarks and whose depth column is multiplied by
the same factor. -/
theorem load_data_ok (fs : FileSystem) (s : ℚ) (p : DPath) (e : ℚ)
    (img0 : ImageV) (fit0 : TriMesh)
    (h0 : load_img_and_fit fs p = Except.ok (img0, fit0)) :
    load_data_with_feature_sample fs s p e =
      Except.ok
        ({ pix := img0.pix
           shape := (⌈s * (img0.shape.1 : ℚ)⌉.toNat, ⌈s * (img0.shape.2 : ℚ)⌉.toNat)
           nChannels := img0.nChannels
           landmarks := fit0.points.map (fun v => (s * v.1, s * v.2.1)) },
         FEATURE_F
           { pix := img0.pix
             shape := (⌈s * (img0.shape.1 : ℚ)⌉.toNat, ⌈s * (img0.shape.2 : ℚ)⌉.toNat)
             nChannels := img0.nChannels
             landmarks := fit0.points.map (fun v => (s * v.1, s * v.2.1)) },
         { points := fit0.points.map (fun v => (s * v.1, s * v.2.1, v.2.2 * s))
           trilist := fit0.trilist }) := by
  simp only [load_data_with_feature_sample, h0, rescale_landmarks_to_diagonal_range, lm2D,
    List.map_map]
  rw [zip_self_map]
  simp only [Function.comp, div_inv_eq_mul]
  rfl

/-- Zipping two maps over the same list is a map of the pair. -/
theorem zip_map_same {α β γ : Type} (l : List α) (f : α → β) (g : α → γ) :
    (l.map f).zip (l.map g) = l.map (fun a => (f a, g a)) := by
  induction l with
  | nil => rfl
  | cons a t ih => simp [ih]

/-- Projecting the first two columns of the normalized mesh points gives
the pre-rescale 2D projection mapped by the scale factor. -/
theorem lm2D_normalized (s : ℚ) (pts : List Vec3) :
    lm2D (pts.map (fun v => (s * v.1, s * v.2.1, v.2.2 * s)))
      = (lm2D pts).map (fun q => (s * q.1, s * q.2)) := by
  simp only [lm2D, List.map_map]
  rfl

/-- Indexing the mapped lazy pipeline forces exactly the sample load at
that index's path. -/
theorem lget_pipeline (fs : FileSystem) (s : ℚ) (paths : List DPath) (i : ℕ) :
    (imgs_features_and_fits fs s paths).lget i
      = (paths.get? i).map (fun p => load_data_with_feature_sample fs s p (1 / 10000)) := by
  simp only [imgs_features_and_fits, LazyList.lget, LazyList.lazyMap,
    LazyList.init_from_iterable, List.get?_map]
  cases paths.get? i <;> rfl

/-- A load failure of the underlying pair propagates through the
normalization step unchanged. -/
theorem load_data_error (fs : FileSystem) (s : ℚ) (p : DPath) (e : ℚ) (err : LoadError)
    (h : load_img_and_fit fs p = Except.error err) :
    load_data_with_feature_sample fs s p e = Except.error err := by
  simp only [load_data_with_feature_sample, h]

/-- When the image is present but the fit file is missing,
`load_img_and_fit` surfaces exactly the fit-not-found error. -/
theorem load_img_and_fit_missing_fit (fs : FileSystem) (p : DPath) (img : ImageV)
    (himg : fs.images p = some img)
    (hmiss : fs.fits (p.with_suffix ".mat") = none) :
    load_img_and_fit fs p = Except.error (LoadError.fitNotFound (p.with_suffix ".mat")) := by
  simp only [load_img_and_fit, himg, hmiss]

/-- A successfully loaded pair carries exactly the connectivity read by
`load_trilist`. -/
theorem trilist_of_load_img_and_fit (fs : FileSystem) (p : DPath) (img0 : ImageV)
    (fit0 : TriMesh) (h : load_img_and_fit fs p = Except.ok (img0, fit0)) :
    load_trilist fs = Except.ok fit0.trilist := by
  unfold load_img_and_fit at h
  cases himg : fs.images p with
  | none => rw [himg] at h; cases h
  | some raw_img =>
    rw [himg] at h
    cases hfit : fs.fits (p.with_suffix ".mat") with
    | none =>
      rw [hfit] at h
      exact Except.noConfusion h
    | some raw =>
      simp only [hfit] at h
      unfold convert_raw_3d_fit_to_img_trimesh_fit at h
      cases htl : load_trilist fs with
      | error e => rw [htl] at h; cases h
      | ok tl =>
        rw [htl] at h
        cases h
        rfl

/-- Every successful sample load comes from a successful pair load. -/
theorem load_data_ok_inv (fs : FileSystem) (s : ℚ) (p : DPath) (e : ℚ) (out : Sample)
    (h : load_data_with_feature_sample fs s p e = Except.ok out) :
    ∃ img0 fit0, load_img_and_fit fs p = Except.ok (img0, fit0)
      ∧ out.2.2.trilist = fit0.trilist := by
  unfold load_data_with_feature_sample at h
  cases h0 : load_img_and_fit fs p with
  | error err => rw [h0] at h; cases h
  | ok v =>
    obtain ⟨img0, fit0⟩ := v
    rw [h0] at h
    cases h
    exact ⟨img0, fit0, rfl, rfl⟩

/-- The result of one sample load depends only on the three files it
reads: the image at its path, the fit at the parallel path, and the
connectivity file. -/
theorem load_data_congr (fs1 fs2 : FileSystem) (s : ℚ) (p : DPath) (e : ℚ)
    (himg : fs1.images p = fs2.images p)
    (hfit : fs1.fits (p.with_suffix ".mat") = fs2.fits (p.with_suffix ".mat"))
    (htri : fs1.modelInfo = fs2.modelInfo) :
    load_data_with_feature_sample fs1 s p e = load_data_with_feature_sample fs2 s p e := by
  have h1 : load_trilist fs1 = load_trilist fs2 := by
    simp only [load_trilist, htri]
  have h2 : ∀ raw img, convert_raw_3d_fit_to_img_trimesh_fit fs1 raw img
      = convert_raw_3d_fit_to_img_trimesh_fit fs2 raw img := by
    intro raw img
    simp only [convert_raw_3d_fit_to_img_trimesh_fit, h1]
  have h3 : load_img_and_fit fs1 p = load_img_and_fit fs2 p := by
    simp only [load_img_and_fit, himg, hfit, h2]
  simp only [load_data_with_feature_sample, h3]

/-! The claims. -/

/-- C1: for every sample produced by the normalization step
(`load_data_with_feature_sample`), after rescaling, the 2D bounding-box
diagonal of the mesh's projected points (the first two coordinate columns)
equals the configured diagonal constant `DIAGONAL_RANGE = 180`: stated
exactly over `ℚ` as equality of squared diagonals (both sides are
nonnegative, so this is equivalent; "within floating-point tolerance"
becomes exactness), where `s` is the scale factor the rescale computed for
the attached 2D projection and that projection is nondegenerate. -/
theorem diagonal_after_rescale_eq_DIAGONAL_RANGE
    (fs : FileSystem) (s : ℚ) (p : DPath) (e : ℚ) (img0 : ImageV) (fit0 : TriMesh)
    (out : Sample)
    (h0 : load_img_and_fit fs p = Except.ok (img0, fit0))
    (h : load_data_with_feature_sample fs s p e = Except.ok out)
    (hs : IsDiagScale DIAGONAL_RANGE (lm2D fit0.points) s) :
    sqDiag (lm2D out.2.2.points) = DIAGONAL_RANGE ^ 2 ∧ DIAGONAL_RANGE = 180 := by
  have hm := load_data_ok fs s p e img0 fit0 h0
  rw [h] at hm
  have hout := Except.ok.inj hm
  subst hout
  refine ⟨?_, rfl⟩
  rw [lm2D_normalized, sqDiag_smul s hs.1, hs.2]

/-- C1 witness: on the concrete test filesystem, the claim's hypotheses
hold at scale 36 and the normalized mesh's squared 2D diagonal is `180²`. -/
theorem diagonal_after_rescale_eq_DIAGONAL_RANGE_witness :
    (load_img_and_fit fs0 path0 = Except.ok (w_img1, w_fit1))
    ∧ IsDiagScale DIAGONAL_RANGE (lm2D w_fit1.points) 36
    ∧ (sqDiag (lm2D w_fit2.points) = DIAGONAL_RANGE ^ 2 ∧ DIAGONAL_RANGE = 180) :=
  ⟨by decide, by decide,
    diagonal_after_rescale_eq_DIAGONAL_RANGE fs0 36 path0 (1/10000) w_img1 w_fit1
      (w_img2, w_feat2, w_fit2) (by decide) (by decide) (by decide)⟩

/-- C2: the normalization step multiplies the mesh's depth (Z) coordinates
by the same factor `s` that the 2D rescale applies to the X and Y
coordinates: the output points are exactly `(s·y, s·x, s·z)` —
the division of the depth column by `tr.scale[0] = s⁻¹` is multiplication
by `s`. -/
theorem depth_scaled_by_same_factor
    (fs : FileSystem) (s : ℚ) (p : DPath) (e : ℚ) (img0 : ImageV) (fit0 : TriMesh)
    (out : Sample)
    (h0 : load_img_and_fit fs p = Except.ok (img0, fit0))
    (h : load_data_with_feature_sample fs s p e = Except.ok out) :
    out.2.2.points = fit0.points.map (fun v => (s * v.1, s * v.2.1, s * v.2.2)) := by
  have hm := load_data_ok fs s p e img0 fit0 h0
  rw [h] at hm
  have hout := Except.ok.inj hm
  subst hout
  show fit0.points.map (fun v => (s * v.1, s * v.2.1, v.2.2 * s))
      = fit0.points.map (fun v => (s * v.1, s * v.2.1, s * v.2.2))
  congr 1
  funext v
  rw [mul_comm v.2.2 s]

/-- C2 witness: the concrete pipeline hypotheses hold, and the normalized
mesh's points are the converted points scaled by 36 in all three
coordinates. -/
theorem depth_scaled_by_same_factor_witness :
    (load_img_and_fit fs0 path0 = Except.ok (w_img1, w_fit1))
    ∧ (load_data_with_feature_sample fs0 36 path0 (1/10000)
        = Except.ok (w_img2, w_feat2, w_fit2))
    ∧ w_fit2.points = w_fit1.points.map (fun v => (36 * v.1, 36 * v.2.1, 36 * v.2.2)) :=
  ⟨by decide, by decide,
    depth_scaled_by_same_factor fs0 36 path0 (1/10000) w_img1 w_fit1
      (w_img2, w_feat2, w_fit2) (by decide) (by decide)⟩

/-- C3 counterexample: the claim "every vertex's 2D coordinate is a valid
index into the feature image's pixel grid" is false on the code — on the
concrete test filesystem the normalized sample has a vertex with vertical
coordinate 360 in a feature image of 360 rows (valid indices 0..359): the
code never clips or validates vertex coordinates. -/
theorem mesh_vertex_in_bounds_counterexample :
    ¬ SampleAligned (load_data_with_feature_sample fs0 36 path0 (1/10000)) := by
  decide

/-- C3 (amended): mesh and feature image produced by the normalization
step remain spatially aligned in the sense that they are placed in one
common pixel frame — the mesh's 2D projection is the pre-rescale
projection mapped by exactly the scale factor applied to the image, whose
shape becomes `⌈s·n⌉` per dimension, and the feature image has the
rescaled image's spatial shape; membership of every vertex inside the
grid bounds is NOT guaranteed (out-of-bounds vertices are left to the
downstream visibility mask). -/
theorem mesh_feature_common_frame
    (fs : FileSystem) (s : ℚ) (p : DPath) (e : ℚ) (img0 : ImageV) (fit0 : TriMesh)
    (out : Sample)
    (h0 : load_img_and_fit fs p = Except.ok (img0, fit0))
    (h : load_data_with_feature_sample fs s p e = Except.ok out) :
    lm2D out.2.2.points = (lm2D fit0.points).map (fun q => (s * q.1, s * q.2))
    ∧ out.1.shape = (⌈s * (img0.shape.1 : ℚ)⌉.toNat, ⌈s * (img0.shape.2 : ℚ)⌉.toNat)
    ∧ out.2.1.shape = out.1.shape := by
  have hm := load_data_ok fs s p e img0 fit0 h0
  rw [h] at hm
  have hout := Except.ok.inj hm
  subst hout
  refine ⟨lm2D_normalized s fit0.points, rfl, rfl⟩

/-- C3 witness (for the amended claim): on the concrete filesystem the
normalized mesh's projection is the converted projection scaled by 36, and
image and feature image share the rescaled shape. -/
theorem mesh_feature_common_frame_witness :
    (load_img_and_fit fs0 path0 = Except.ok (w_img1, w_fit1))
    ∧ (lm2D w_fit2.points = (lm2D w_fit1.points).map (fun q => (36 * q.1, 36 * q.2))
        ∧ w_img2.shape = (⌈(36 : ℚ) * ((10 : ℕ) : ℚ)⌉.toNat, ⌈(36 : ℚ) * ((10 : ℕ) : ℚ)⌉.toNat)
        ∧ w_feat2.shape = w_img2.shape) :=
  ⟨by decide,
    mesh_feature_common_frame fs0 36 path0 (1/10000) w_img1 w_fit1
      (w_img2, w_feat2, w_fit2) (by decide) (by decide)⟩

/-- C4: the conversion of a raw 3D fit maps each raw column `(a, b, c)`
on an image of height `H` to the vertex `(H − (b − 1), a − 1, −c)`:
first two rows swapped, 1 subtracted for 0-based indexing, vertical axis
inverted against the image height, depth negated. -/
theorem raw_fit_conversion_formula (fs : FileSystem) (raw : List Vec3) (img : ImageV)
    (m : TriMesh)
    (h : convert_raw_3d_fit_to_img_trimesh_fit fs raw img = Except.ok m) :
    m.points = raw.map
      (fun v => ((img.shape.1 : ℚ) - (v.2.1 - 1), v.1 - 1, -v.2.2)) := by
  unfold convert_raw_3d_fit_to_img_trimesh_fit at h
  cases htl : load_trilist fs with
  | error err => rw [htl] at h; cases h
  | ok tl =>
    rw [htl] at h
    cases h
    simp only [List.map_map]
    rw [zip_map_same, List.map_map]
    congr 1
    funext v
    simp [Function.comp, mul_neg_one]

/-- C4 witness: on the concrete raw fit `[(1,1,0),(4,5,0)]` over a height-10
image, the converted vertices are `[(10,0,0),(6,3,0)]`, matching the
formula. -/
theorem raw_fit_conversion_formula_witness :
    (convert_raw_3d_fit_to_img_trimesh_fit fs0 rawfit0 w_img1 = Except.ok w_fit1)
    ∧ w_fit1.points = rawfit0.map
        (fun v => ((w_img1.shape.1 : ℚ) - (v.2.1 - 1), v.1 - 1, -v.2.2)) :=
  ⟨by decide, raw_fit_conversion_formula fs0 rawfit0 w_img1 w_fit1 (by decide)⟩

/-- C5: when an image's fit file is missing, the lazy sequence is still
built over all paths (full length, no silent skip), accessing that index
surfaces the fit-not-found load error (the error appears at element-access
time: the sequence itself is a list of unforced thunks), and every index's
element is exactly its own path's load result, so other indices remain
accessible. -/
theorem missing_fit_error_at_access (fs : FileSystem) (s : ℚ) (paths : List DPath)
    (i : ℕ) (p : DPath) (img : ImageV)
    (hp : paths.get? i = some p)
    (himg : fs.images p = some img)
    (hmiss : fs.fits (p.with_suffix ".mat") = none) :
    (imgs_features_and_fits fs s paths).llength = paths.length
    ∧ (imgs_features_and_fits fs s paths).lget i
        = some (Except.error (LoadError.fitNotFound (p.with_suffix ".mat")))
    ∧ ∀ j q, paths.get? j = some q →
        (imgs_features_and_fits fs s paths).lget j
          = some (load_data_with_feature_sample fs s q (1 / 10000)) := by
  refine ⟨?_, ?_, ?_⟩
  · simp [imgs_features_and_fits, LazyList.llength, LazyList.lazyMap,
      LazyList.init_from_iterable]
  · rw [lget_pipeline, hp]
    simp only [Option.map_some']
    rw [load_data_error fs s p (1 / 10000) _
      (load_img_and_fit_missing_fit fs p img himg hmiss)]
  · intro j q hq
    rw [lget_pipeline, hq]
    rfl

/-- C5 witness: over `fs5` (image `pathB` present, its fit missing) and the
path list `[path0, pathB]`, the sequence has length 2, index 1 yields the
fit-not-found error, and each index holds its own load result (index 0
loads successfully). -/
theorem missing_fit_error_at_access_witness :
    ([path0, pathB].get? 1 = some pathB)
    ∧ (fs5.images pathB = some img0)
    ∧ (fs5.fits (pathB.with_suffix ".mat") = none)
    ∧ ((imgs_features_and_fits fs5 36 [path0, pathB]).llength = [path0, pathB].length
        ∧ (imgs_features_and_fits fs5 36 [path0, pathB]).lget 1
            = some (Except.error (LoadError.fitNotFound (pathB.with_suffix ".mat")))
        ∧ ∀ j q, [path0, pathB].get? j = some q →
            (imgs_features_and_fits fs5 36 [path0, pathB]).lget j
              = some (load_data_with_feature_sample fs5 36 q (1 / 10000))) :=
  ⟨by decide, by decide, by decide,
    missing_fit_error_at_access fs5 36 [path0, pathB] 1 pathB img0
      (by decide) (by decide) (by decide)⟩

/-- C6: the triangle connectivity is read from the one reference file
(`load_trilist`, cached by `lru_cache(1)`, is a pure function of that
file), so any two meshes produced by the loader from the same filesystem
carry identical triangle lists. -/
theorem trilist_identical_across_meshes (fs : FileSystem)
    (s1 s2 : ℚ) (p1 p2 : DPath) (e1 e2 : ℚ) (out1 out2 : Sample)
    (h1 : load_data_with_feature_sample fs s1 p1 e1 = Except.ok out1)
    (h2 : load_data_with_feature_sample fs s2 p2 e2 = Except.ok out2) :
    out1.2.2.trilist = out2.2.2.trilist := by
  obtain ⟨i1, f1, hl1, ht1⟩ := load_data_ok_inv fs s1 p1 e1 out1 h1
  obtain ⟨i2, f2, hl2, ht2⟩ := load_data_ok_inv fs s2 p2 e2 out2 h2
  have g1 := trilist_of_load_img_and_fit fs p1 i1 f1 hl1
  have g2 := trilist_of_load_img_and_fit fs p2 i2 f2 hl2
  rw [g1] at g2
  rw [ht1, ht2, Except.ok.inj g2]

/-- C6 witness: two different samples loaded from `fs6` (different paths,
different scale factors) carry the same triangle list. -/
theorem trilist_identical_across_meshes_witness :
    (load_data_with_feature_sample fs6 36 path0 (1/10000)
        = Except.ok (w_img2, w_feat2, w_fit2))
    ∧ (load_data_with_feature_sample fs6 1 pathB (1/10000)
        = Except.ok (w_img2B, w_feat2B, w_fit2B))
    ∧ w_fit2.trilist = w_fit2B.trilist :=
  ⟨by decide, by decide,
    trilist_identical_across_meshes fs6 36 1 path0 pathB (1/10000) (1/10000)
      (w_img2, w_feat2, w_fit2) (w_img2B, w_feat2B, w_fit2B) (by decide) (by decide)⟩

/-- C7: the lazy sequence is restartable and deterministic — accessing the
same index against any two filesystem states that agree on the three files
that sample reads (its image, its fit, the connectivity file) yields equal
results: same feature image, same mesh points and connectivity. In
particular, two accesses with unchanged underlying files are equal. -/
theorem lazy_access_deterministic (fs1 fs2 : FileSystem) (s : ℚ)
    (paths : List DPath) (i : ℕ) (p : DPath)
    (hp : paths.get? i = some p)
    (himg : fs1.images p = fs2.images p)
    (hfit : fs1.fits (p.with_suffix ".mat") = fs2.fits (p.with_suffix ".mat"))
    (htri : fs1.modelInfo = fs2.modelInfo) :
    (imgs_features_and_fits fs1 s paths).lget i
      = (imgs_features_and_fits fs2 s paths).lget i := by
  rw [lget_pipeline, lget_pipeline, hp]
  simp only [Option.map_some']
  rw [load_data_congr fs1 fs2 s p (1 / 10000) himg hfit htri]

/-- C7 witness: `fs5` and `fs6` differ (the fit for `pathB` exists only in
`fs6`) but agree on `path0`'s files, so accessing index 0 of the pipeline
over `[path0]` gives the same sample in both. -/
theorem lazy_access_deterministic_witness :
    ([path0].get? 0 = some path0)
    ∧ (fs5.images path0 = fs6.images path0)
    ∧ (fs5.fits (path0.with_suffix ".mat") = fs6.fits (path0.with_suffix ".mat"))
    ∧ (fs5.modelInfo = fs6.modelInfo)
    ∧ (imgs_features_and_fits fs5 36 [path0]).lget 0
        = (imgs_features_and_fits fs6 36 [path0]).lget 0 :=
  ⟨by decide, by decide, by decide, by decide,
    lazy_access_deterministic fs5 fs6 36 [path0] 0 path0
      (by decide) (by decide) (by decide) (by decide)⟩

/-- C8: the exported pickle holds exactly the three keys `texture_model`,
`diagonal_range` and `feature_function`, and the recorded metadata equals
the values actually used in training: the recorded diagonal equals
`DIAGONAL_RANGE` (the constant used by the normalization step) and the
recorded feature function equals `FEATURE_F` (the function used for
feature extraction), alongside the fitted texture model itself. -/
theorem exported_pickle_contents (m : TextureModel) :
    (exported_pickle m).map Prod.fst
        = ["texture_model", "diagonal_range", "feature_function"]
    ∧ (exported_pickle m).lookup "texture_model" = some (PickleValue.texModel m)
    ∧ (exported_pickle m).lookup "diagonal_range" = some (PickleValue.num DIAGONAL_RANGE)
    ∧ (exported_pickle m).lookup "feature_function" = some (PickleValue.featureFn FEATURE_F) :=
  ⟨rfl, rfl, rfl, rfl⟩

/-- C9: `as_float32` does not mutate its input image: after the call the
object behind the input reference is unchanged (pixel values and dtype
included); the returned reference is a different object whose value is the
input's with only the pixel array replaced by its float32 cast — all other
fields equal the input's. -/
theorem as_float32_no_mutation (h : Heap) (r : ℕ) (hr : r < h.length) :
    (as_float32 h r).1.getD r default = h.getD r default
    ∧ (as_float32 h r).2 ≠ r
    ∧ (as_float32 h r).1.getD (as_float32 h r).2 default
        = { h.getD r default with pix := astype_float32 (h.getD r default).pix } := by
  have hx : (List.get? (h ++ [(List.get? h r).getD default]) h.length).getD default
      = (List.get? h r).getD default := by
    rw [List.get?_concat_length]
    rfl
  refine ⟨?_, ?_, ?_⟩
  · simp only [as_float32, heapCopy, heapSetPixels, List.getD]
    rw [List.get?_set_ne _ _ (Nat.ne_of_lt hr).symm, List.get?_append hr]
  · intro hcontra
    have hh : h.length = r := hcontra
    omega
  · simp only [as_float32, heapCopy, heapSetPixels, List.getD]
    rw [List.get?_set_eq_of_lt]
    · simp only [Option.getD_some]
      rw [hx]
    · simp

/-- C9 witness: on a one-image heap, the call leaves the original object
unchanged, returns a distinct reference, and that object is the original
with only the pixels cast. -/
theorem as_float32_no_mutation_witness :
    0 < heap0.length
    ∧ ((as_float32 heap0 0).1.getD 0 default = heap0.getD 0 default
        ∧ (as_float32 heap0 0).2 ≠ 0
        ∧ (as_float32 heap0 0).1.getD (as_float32 heap0 0).2 default
            = { heap0.getD 0 default with pix := astype_float32 (heap0.getD 0 default).pix }) :=
  ⟨by decide, as_float32_no_mutation heap0 0 (by decide)⟩

/-- C10: the result of `load_data_with_feature_sample` is independent of
its `err_proportion` parameter — the parameter is accepted but never read,
so any two values give equal (image, feature, mesh) results for every
filesystem and path. -/
theorem err_proportion_has_no_effect (fs : FileSystem) (s : ℚ) (p : DPath)
    (e1 e2 : ℚ) :
    load_data_with_feature_sample fs s p e1 = load_data_with_feature_sample fs s p e2 :=
  rfl

end ITW
